import Mathlib

/-!
Verification of the provider/fallback orchestration and excerpt-acceptance
pipeline of the `obsidian-ai-excerpt-generator` plugin.

The TypeScript sources are embedded shallowly:

* `_ensureCompleteSentence` (identical in `src/providers/openai-provider.ts`
  and the revised Claude provider) becomes `ensureCompleteSentence` over
  `List Char`;
* the length-enforcement step of `ClaudeProvider.generateExcerpt`
  (`src/providers/claude-provider.ts`) becomes `claudeEnforceLength`;
* the retry/error-classification logic of `ClaudeProvider.generateExcerpt`
  becomes `claudeGenerate`, driven by a list of API-call outcomes;
* `ProviderFactory` (`src/providers/provider-factory.ts`) becomes explicit
  state passing over `FactoryState`;
* the two revisions of `FileProcessor.processFile` (`src/settings.ts`) become
  `processFileV1` and `processFileV2`, driven by the extracted frontmatter
  facts and by the outcomes of the primary and fallback generate calls.
-/

namespace AIExcerpt

/-- Whitespace as matched by the JavaScript regex class `\s` and stripped by
`String.prototype.trim`, restricted to the ASCII range the plugin's data
exercises (space, tab, line feed, vertical tab, form feed, carriage return). -/
def isJsWhitespace (c : Char) : Bool :=
  c = ' ' || c = '\t' || c = '\n' || c = '\x0b' || c = '\x0c' || c = '\r'

/-- Character class `[A-Z]` of the sentence-boundary regex. -/
def isUpperAZ (c : Char) : Bool :=
  'A' ≤ c && c ≤ 'Z'

/-- Character class `[.!?]` of the sentence-boundary regex. -/
def isSentencePunct (c : Char) : Bool :=
  c = '.' || c = '!' || c = '?'

/-- JavaScript `String.prototype.trim`: drop leading and trailing whitespace. -/
def jsTrim (cs : List Char) : List Char :=
  ((cs.dropWhile isJsWhitespace).reverse.dropWhile isJsWhitespace).reverse

/-- Scanner for `text.matchAll(/[.!?]\s*(?=[A-Z]|$)/g)`, returning the list of
matches as pairs `(index, length)` in scan order.

A match at position `i` needs `text[i] ∈ [.!?]`.  The greedy `\s*` first
consumes the maximal whitespace run after `i`; backtracking a shorter run would
place the lookahead on a whitespace character, which satisfies neither `[A-Z]`
nor `$`, so the attempt succeeds exactly when the first character after the
maximal run is an ASCII capital or the string ends there, and the match length
is `1 + run`.  `matchAll` resumes scanning at the end of each (non-empty)
match, and one position further after a failed attempt.

The first argument is fuel, instantiated with the length of the text; every
step drops at least one character while spending exactly one unit of fuel, so
the fuel never runs out before the text does (this keeps the recursion
structural, hence reducible by the kernel). -/
def sentenceEndMatchesAux : Nat → Nat → List Char → List (Nat × Nat)
  | 0, _, _ => []
  | _ + 1, _, [] => []
  | fuel + 1, i, c :: rest =>
    if isSentencePunct c then
      let ws := (rest.takeWhile isJsWhitespace).length
      let after := rest.drop ws
      let lookahead :=
        match after with
        | [] => true
        | d :: _ => isUpperAZ d
      if lookahead then
        (i, 1 + ws) :: sentenceEndMatchesAux fuel (i + 1 + ws) after
      else
        sentenceEndMatchesAux fuel (i + 1) rest
    else
      sentenceEndMatchesAux fuel (i + 1) rest

/-- All matches of the sentence-boundary regex on `text`. -/
def sentenceEndMatches (text : List Char) : List (Nat × Nat) :=
  sentenceEndMatchesAux text.length 0 text

/-- Loop body of `_ensureCompleteSentence` over the regex matches: keep the
last end position (`match.index + match[0].length`) that is at most
`maxLength`, and `break` at the first one beyond it.  The accumulator starts
at the sentinel `-1` of `lastMatchIndex`. -/
def lastBoundaryLoop (maxLength : Nat) : List (Nat × Nat) → Int → Int
  | [], acc => acc
  | (idx, len) :: rest, acc =>
    if idx + len ≤ maxLength then lastBoundaryLoop maxLength rest (idx + len : Nat)
    else acc

/-- JavaScript `text.lastIndexOf(ch, fromIdx)`: the greatest index `≤ fromIdx`
at which `ch` occurs, and `-1` when there is none. -/
def lastIndexOfFrom : List Char → Char → Nat → Int
  | [], _, _ => -1
  | c :: rest, ch, fromIdx =>
    if fromIdx = 0 then
      if c = ch then 0 else -1
    else
      let r := lastIndexOfFrom rest ch (fromIdx - 1)
      if 0 ≤ r then r + 1
      else if c = ch then 0 else -1

/-- Shallow embedding of `_ensureCompleteSentence(text, maxLength)`
(`src/providers/openai-provider.ts` lines 213-275; byte-identical in the
revised Claude provider).  The strict priority chain is: return unchanged when
within the limit; last regex sentence boundary with end position `≤ maxLength`;
latest `.`/`?`/`!` at index `≤ maxLength - 1`; last space at index
`≤ maxLength - 1` kept only above three quarters of the limit (the comparison
`lastSpaceIndex > maxLength * 0.75` is exact in IEEE doubles and is rendered
here as `4 * lastSpaceIndex > 3 * maxLength`); otherwise hard truncation to
`maxLength - 1` characters plus a synthesized period. -/
def ensureCompleteSentence (text : List Char) (maxLength : Nat) : List Char :=
  if text.length ≤ maxLength then text
  else
    let lastMatchIndex := lastBoundaryLoop maxLength (sentenceEndMatches text) (-1)
    if 0 < lastMatchIndex then jsTrim (text.take lastMatchIndex.toNat)
    else
      let lastPeriodIndex := lastIndexOfFrom text '.' (maxLength - 1)
      let lastQuestionIndex := lastIndexOfFrom text '?' (maxLength - 1)
      let lastExclamationIndex := lastIndexOfFrom text '!' (maxLength - 1)
      let endIndex :=
        max (max (if 0 < lastPeriodIndex then lastPeriodIndex else 0)
            (if 0 < lastQuestionIndex then lastQuestionIndex else 0))
          (if 0 < lastExclamationIndex then lastExclamationIndex else 0)
      if 0 < endIndex then jsTrim (text.take (endIndex.toNat + 1))
      else
        if maxLength < text.length then
          let lastSpaceIndex := lastIndexOfFrom text ' ' (maxLength - 1)
          if 3 * (maxLength : Int) < 4 * lastSpaceIndex then
            jsTrim (text.take lastSpaceIndex.toNat) ++ ['.']
          else
            jsTrim (text.take (maxLength - 1)) ++ ['.']
        else
          jsTrim (text.take (maxLength - 1)) ++ ['.']

/-- Length-enforcement step of `ClaudeProvider.generateExcerpt` in the revision
at `src/providers/claude-provider.ts` (lines 81-84): when the (trimmed) API
text exceeds `maxLength`, return `excerptText.substring(0, maxLength - 3)`
followed by a literal ellipsis.  JavaScript `substring` clamps a negative end
index to `0`, which truncated `Nat` subtraction reproduces. -/
def claudeEnforceLength (text : List Char) (maxLength : Nat) : List Char :=
  if maxLength < text.length then text.take (maxLength - 3) ++ ['.', '.', '.']
  else text

/-- Maximum retry count of `ClaudeProvider` (`maxRetries` field). -/
def claudeMaxRetries : Nat := 5

/-- Exponential-backoff delay for a given (already incremented) retry count:
`Math.min(Math.pow(2, retryCount) * 1000 + Math.random() * 1000, 30000)`.
The jitter drawn from `Math.random() * 1000` is abstracted as an arbitrary
per-attempt amount. -/
def backoffDelay (jitter : Nat → Nat) (attempt : Nat) : Nat :=
  min (2 ^ attempt * 1000 + jitter attempt) 30000

/-- One observed outcome of a single Claude API call: a successful (trimmed)
text, an `APIError` with an HTTP status and an optionally parsed
`retry-after` header (in seconds; an absent or unparseable header is `none`),
or any other thrown error. -/
inductive ClaudeOutcome where
  | success (text : List Char)
  | apiError (status : Nat) (retryAfter : Option Nat)
  | otherError (msg : String)
  deriving DecidableEq

/-- The distinct errors thrown by `ClaudeProvider.generateExcerpt`, one
constructor per `throw new Error(...)` site; `noOutcome` is a model artifact
for an exhausted outcome stream. -/
inductive ClaudeError where
  | rateLimitExceeded
  | overloaded
  | invalidApiKey
  | invalidRequest
  | serverError
  | generic (msg : String)
  | noOutcome
  deriving DecidableEq

/-- Shallow embedding of `ClaudeProvider.generateExcerpt`
(`src/providers/claude-provider.ts` lines 60-166; the error-handling chain is
byte-identical in the revised provider).  The instance state `retryCount`
is passed explicitly, the successive API-call results are supplied as a list
of outcomes, and the function returns the thrown-or-returned result, the list
of backoff delays actually awaited (one per retry, in order), and the final
`retryCount`.

On a 429 with `retryCount < maxRetries` the count is incremented first, and
the delay is `retryAfter * 1000` via the JavaScript expression
`retryAfter || Math.min(...)` — so a present but zero (or unparseable, hence
`NaN`) header value is falsy and falls back to the computed backoff.  On any
success the count resets to `0` and the length enforcement above is applied.
Statuses 529, 401, 400 and (then) `>= 500` throw immediately; everything else
is wrapped as a generic error. -/
def claudeGenerate (jitter : Nat → Nat) (maxLength : Nat) :
    Nat → List ClaudeOutcome → Except ClaudeError (List Char) × List Nat × Nat
  | rc, [] => (.error .noOutcome, [], rc)
  | _, .success t :: _ => (.ok (claudeEnforceLength t maxLength), [], 0)
  | rc, .apiError status retryAfter :: rest =>
    if status = 429 then
      if rc < claudeMaxRetries then
        let delayMs :=
          match retryAfter with
          | some s => if s * 1000 ≠ 0 then s * 1000 else backoffDelay jitter (rc + 1)
          | none => backoffDelay jitter (rc + 1)
        let r := claudeGenerate jitter maxLength (rc + 1) rest
        (r.1, delayMs :: r.2.1, r.2.2)
      else (.error .rateLimitExceeded, [], rc)
    else if status = 529 then (.error .overloaded, [], rc)
    else if status = 401 then (.error .invalidApiKey, [], rc)
    else if status = 400 then (.error .invalidRequest, [], rc)
    else if 500 ≤ status then (.error .serverError, [], rc)
    else (.error (.generic "Claude API error"), [], rc)
  | rc, .otherError msg :: _ => (.error (.generic msg), [], rc)

/-- The `LLMProvider` enumeration of `src/types.ts`. -/
inductive LLMProvider where
  | claude
  | openai
  deriving DecidableEq

/-- The `PromptType` enumeration of `src/types.ts`. -/
inductive PromptType where
  | default
  | academic
  | professional
  | blog
  | simplified
  | social
  deriving DecidableEq

/-- The `AIExcerptSettings` interface of `src/types.ts`.  API keys use the
empty string for "not configured", matching the JavaScript truthiness checks
`!settings.claudeApiKey` / `!settings.openaiApiKey`. -/
structure AIExcerptSettings where
  provider : LLMProvider
  promptType : PromptType
  claudeApiKey : String
  claudeModel : String
  openaiApiKey : String
  openaiModel : String
  maxLength : Nat
  deriving DecidableEq

/-- A pooled provider instance.  Its pool key `provider-Date.now()` is modelled
by the pair of its type and creation timestamp, which also stands in for the
reference identity used by `releaseProvider`'s `===` comparison (creation
timestamps are taken distinct, as `Date.now()` collisions would also collide
the pool keys in the source). -/
structure ProviderInstance where
  ptype : LLMProvider
  createdAt : Nat
  deriving DecidableEq

/-- The pool key `` `${provider}-${Date.now()}` ``. -/
abbrev PoolKey := LLMProvider × Nat

/-- The process-wide mutable state of `ProviderFactory`: the
`providerCooldowns` record and the `activeProviders` insertion-ordered map. -/
structure FactoryState where
  providerCooldowns : LLMProvider → Option Nat
  activeProviders : List (PoolKey × ProviderInstance)

/-- `cooldownDuration` (one minute). -/
def cooldownDuration : Nat := 60000

/-- `maxActiveProviders` (two concurrent instances). -/
def maxActiveProviders : Nat := 2

/-- `Map.prototype.set`: replace in place when the key is present, append
otherwise (JavaScript maps iterate in insertion order). -/
def mapSet : List (PoolKey × ProviderInstance) → PoolKey → ProviderInstance →
    List (PoolKey × ProviderInstance)
  | [], k, v => [(k, v)]
  | e :: rest, k, v => if e.1 = k then (k, v) :: rest else e :: mapSet rest k v

/-- `ProviderFactory.isProviderInCooldown`: the stored timestamp must be
truthy (non-zero) and strictly in the future. -/
def isProviderInCooldown (st : FactoryState) (p : LLMProvider) (now : Nat) : Bool :=
  match st.providerCooldowns p with
  | some cooldownUntil => cooldownUntil != 0 && decide (now < cooldownUntil)
  | none => false

/-- `ProviderFactory.setProviderCooldown`: record `now + cooldownDuration`. -/
def setProviderCooldown (st : FactoryState) (p : LLMProvider) (now : Nat) : FactoryState :=
  { st with
    providerCooldowns := fun q =>
      if q = p then some (now + cooldownDuration) else st.providerCooldowns q }

/-- `ProviderFactory.reportProviderFailure` delegates to
`setProviderCooldown`. -/
def reportProviderFailure (st : FactoryState) (p : LLMProvider) (now : Nat) : FactoryState :=
  setProviderCooldown st p now

/-- `ProviderFactory.getExistingProvider`: first pooled instance of the
requested type, in insertion order (the `instanceof` test). -/
def getExistingProvider (st : FactoryState) (providerType : LLMProvider) :
    Option ProviderInstance :=
  (st.activeProviders.find? fun e => e.2.ptype = providerType).map (·.2)

/-- Remove the first pool entry whose instance is the released one
(reference equality in the source). -/
def removeFirstInstance : List (PoolKey × ProviderInstance) → ProviderInstance →
    List (PoolKey × ProviderInstance)
  | [], _ => []
  | e :: rest, inst => if e.2 = inst then rest else e :: removeFirstInstance rest inst

/-- `ProviderFactory.releaseProvider`. -/
def releaseProvider (st : FactoryState) (inst : ProviderInstance) : FactoryState :=
  { st with activeProviders := removeFirstInstance st.activeProviders inst }

/-- Result record of `ProviderFactory.createFallbackProvider`. -/
structure FallbackResult where
  provider : Option ProviderInstance
  fallbackType : Option LLMProvider
  needsConfiguration : Bool
  deriving DecidableEq

/-- `ProviderFactory.createFallbackProvider`
(`src/providers/provider-factory.ts` lines 167-252): map Claude to OpenAI and
vice versa, bail out with no provider when the fallback is itself in cooldown,
flag `needsConfiguration` when its key is missing, and otherwise construct and
pool a new fallback instance (no capacity check on this path). -/
def createFallbackProvider (settings : AIExcerptSettings)
    (primaryProvider : LLMProvider) (st : FactoryState) (now : Nat) :
    FallbackResult × FactoryState :=
  match primaryProvider with
  | .claude =>
    if isProviderInCooldown st .openai now then
      (⟨none, some .openai, false⟩, st)
    else if settings.openaiApiKey ≠ "" then
      let inst : ProviderInstance := ⟨.openai, now⟩
      (⟨some inst, some .openai, false⟩,
        { st with activeProviders := mapSet st.activeProviders (.openai, now) inst })
    else
      (⟨none, some .openai, true⟩, st)
  | .openai =>
    if isProviderInCooldown st .claude now then
      (⟨none, some .claude, false⟩, st)
    else if settings.claudeApiKey ≠ "" then
      let inst : ProviderInstance := ⟨.claude, now⟩
      (⟨some inst, some .claude, false⟩,
        { st with activeProviders := mapSet st.activeProviders (.claude, now) inst })
    else
      (⟨none, some .claude, true⟩, st)

/-- The part of `ProviderFactory.createProvider` after the cooldown redirect:
the capacity check (which only short-circuits when an instance of the
requested identity already exists in the pool) followed by the key check and
construction of a freshly pooled instance. -/
def createProviderRest (settings : AIExcerptSettings) (st : FactoryState) (now : Nat) :
    Option ProviderInstance × FactoryState :=
  let construct : Option ProviderInstance × FactoryState :=
    match settings.provider with
    | .claude =>
      if settings.claudeApiKey = "" then (none, st)
      else
        let inst : ProviderInstance := ⟨.claude, now⟩
        (some inst,
          { st with activeProviders := mapSet st.activeProviders (.claude, now) inst })
    | .openai =>
      if settings.openaiApiKey = "" then (none, st)
      else
        let inst : ProviderInstance := ⟨.openai, now⟩
        (some inst,
          { st with activeProviders := mapSet st.activeProviders (.openai, now) inst })
  if maxActiveProviders ≤ st.activeProviders.length then
    match getExistingProvider st settings.provider with
    | some existing => (some existing, st)
    | none => construct
  else construct

/-- `ProviderFactory.createProvider`
(`src/providers/provider-factory.ts` lines 57-135): when the requested
provider is in cooldown, try the fallback first and return it when one was
obtained; otherwise fall through to the normal path `createProviderRest`. -/
def createProvider (settings : AIExcerptSettings) (st : FactoryState) (now : Nat) :
    Option ProviderInstance × FactoryState :=
  if isProviderInCooldown st settings.provider now then
    let fr := createFallbackProvider settings settings.provider st now
    match fr.1.provider with
    | some p => (some p, fr.2)
    | none => createProviderRest settings fr.2 now
  else createProviderRest settings st now

/-- The fallback identity mapping stated by the specification (Claude and
OpenAI swap); used to phrase theorems uniformly over both identities. -/
def otherProvider : LLMProvider → LLMProvider
  | .claude => .openai
  | .openai => .claude

/-- The configured API key for an identity, as tested for truthiness by the
factory. -/
def apiKeyFor (settings : AIExcerptSettings) : LLMProvider → String
  | .claude => settings.claudeApiKey
  | .openai => settings.openaiApiKey

deriving instance DecidableEq for Except

/-- Inputs of one `FileProcessor.processFile` run, with the external
collaborators of the core abstracted: the file-type check, the results of
`FileUtils.extractFrontmatter` / `extractExcerptFromFrontmatter` (with
`excerptNonEmpty` the truthiness of the extracted excerpt string), and the
awaited outcomes of the primary and fallback `generateExcerpt` calls (an
`Except` error carries the thrown message). -/
structure ProcEnv where
  extensionMd : Bool
  hasFrontmatter : Bool
  hasExcerpt : Bool
  excerptNonEmpty : Bool
  primaryResult : Except String (List Char)
  fallbackResult : Except String (List Char)
  deriving DecidableEq

/-- Observable completion of the second `FileProcessor.processFile` revision,
whose outer `catch` logs an error and returns normally instead of
rethrowing. -/
inductive ProcOutcome where
  | notMarkdown
  | notConfigured
  | completed
  | errorSwallowed (e : String)
  deriving DecidableEq

/-- Observable completion of the first `FileProcessor.processFile` revision,
whose outer `catch` rethrows (as `Failed to process file ...: e`, modelled by
the inner message `e`), and which leaves files with an existing non-empty
excerpt untouched. -/
inductive ProcOutcomeV1 where
  | notMarkdown
  | notConfigured
  | completed
  | excerptExists
  | errorRaised (e : String)
  deriving DecidableEq

/-- Trace of one run of the second `processFile` revision: its outcome, the
final factory state, and how many `generateExcerpt` calls and file writes
(`vault.process` / `fileManager.processFrontMatter`) it performed. -/
structure ProcTrace where
  outcome : ProcOutcome
  state : FactoryState
  generateCalls : Nat
  writes : Nat

/-- Trace of one run of the first `processFile` revision. -/
structure ProcTraceV1 where
  outcome : ProcOutcomeV1
  state : FactoryState
  generateCalls : Nat
  writes : Nat

/-- Shallow embedding of the second revision of `FileProcessor.processFile`
(`src/settings.ts` lines 752-1053).  All factory calls within the run share
one `Date.now()` value `now`.  Both the no-frontmatter branch (writing via
`vault.process`) and the frontmatter branch (writing via
`fileManager.processFrontMatter`, regenerating regardless of an existing
excerpt) follow the same bookkeeping: on primary success release the primary;
on primary failure report it and try the fallback; on fallback success or
failure release only the fallback instance (the primary stays pooled), report
the fallback on its failure and rethrow the fallback error; when no fallback
instance was obtained release the primary and rethrow the original error.
The outer `catch` swallows whatever was thrown. -/
def processFileV2 (settings : AIExcerptSettings) (env : ProcEnv)
    (st0 : FactoryState) (now : Nat) : ProcTrace :=
  if ¬env.extensionMd then ⟨.notMarkdown, st0, 0, 0⟩
  else
    match createProvider settings st0 now with
    | (none, st1) => ⟨.notConfigured, st1, 0, 0⟩
    | (some provider, st1) =>
      if ¬env.hasFrontmatter then
        match env.primaryResult with
        | .ok _ =>
          ⟨.completed, releaseProvider st1 provider, 1, 1⟩
        | .error providerError =>
          let st2 := reportProviderFailure st1 settings.provider now
          let fr := createFallbackProvider settings settings.provider st2 now
          match fr.1.provider with
          | some fallbackInstance =>
            match env.fallbackResult with
            | .ok _ =>
              ⟨.completed, releaseProvider fr.2 fallbackInstance, 2, 1⟩
            | .error fallbackError =>
              let st3 :=
                match fr.1.fallbackType with
                | some ft => reportProviderFailure fr.2 ft now
                | none => fr.2
              ⟨.errorSwallowed fallbackError, releaseProvider st3 fallbackInstance, 2, 0⟩
          | none =>
            if fr.1.needsConfiguration then
              ⟨.errorSwallowed providerError, releaseProvider fr.2 provider, 1, 0⟩
            else
              ⟨.errorSwallowed providerError, releaseProvider fr.2 provider, 1, 0⟩
      else
        match env.primaryResult with
        | .ok _ =>
          ⟨.completed, releaseProvider st1 provider, 1, 1⟩
        | .error providerError =>
          let st2 := reportProviderFailure st1 settings.provider now
          let fr := createFallbackProvider settings settings.provider st2 now
          match fr.1.provider with
          | some fallbackInstance =>
            match env.fallbackResult with
            | .ok _ =>
              ⟨.completed, releaseProvider fr.2 fallbackInstance, 2, 1⟩
            | .error fallbackError =>
              let st3 :=
                match fr.1.fallbackType with
                | some ft => reportProviderFailure fr.2 ft now
                | none => fr.2
              ⟨.errorSwallowed fallbackError, releaseProvider st3 fallbackInstance, 2, 0⟩
          | none =>
            if fr.1.needsConfiguration then
              ⟨.errorSwallowed providerError, releaseProvider fr.2 provider, 1, 0⟩
            else
              ⟨.errorSwallowed providerError, releaseProvider fr.2 provider, 1, 0⟩

/-- Shallow embedding of the first revision of `FileProcessor.processFile`
(`src/settings.ts` lines 323-585).  It differs from the second revision in
that it never calls `reportProviderFailure` or `releaseProvider`, its fallback
`generateExcerpt` call is not wrapped in an inner `catch` (its error
propagates directly), its outer `catch` rethrows, and — decisive here — a file
whose frontmatter already has a truthy excerpt is left alone: no generate
call, no write. -/
def processFileV1 (settings : AIExcerptSettings) (env : ProcEnv)
    (st0 : FactoryState) (now : Nat) : ProcTraceV1 :=
  if ¬env.extensionMd then ⟨.notMarkdown, st0, 0, 0⟩
  else
    match createProvider settings st0 now with
    | (none, st1) => ⟨.notConfigured, st1, 0, 0⟩
    | (some _, st1) =>
      if ¬env.hasFrontmatter then
        match env.primaryResult with
        | .ok _ => ⟨.completed, st1, 1, 1⟩
        | .error providerError =>
          let fr := createFallbackProvider settings settings.provider st1 now
          match fr.1.provider with
          | some _ =>
            match env.fallbackResult with
            | .ok _ => ⟨.completed, fr.2, 2, 1⟩
            | .error fallbackError => ⟨.errorRaised fallbackError, fr.2, 2, 0⟩
          | none =>
            if fr.1.needsConfiguration then ⟨.errorRaised providerError, fr.2, 1, 0⟩
            else ⟨.errorRaised providerError, fr.2, 1, 0⟩
      else
        if ¬env.hasExcerpt || ¬env.excerptNonEmpty then
          match env.primaryResult with
          | .ok _ => ⟨.completed, st1, 1, 1⟩
          | .error providerError =>
            let fr := createFallbackProvider settings settings.provider st1 now
            match fr.1.provider with
            | some _ =>
              match env.fallbackResult with
              | .ok _ => ⟨.completed, fr.2, 2, 1⟩
              | .error fallbackError => ⟨.errorRaised fallbackError, fr.2, 2, 0⟩
            | none =>
              if fr.1.needsConfiguration then ⟨.errorRaised providerError, fr.2, 1, 0⟩
              else ⟨.errorRaised providerError, fr.2, 1, 0⟩
        else
          ⟨.excerptExists, st1, 0, 0⟩

/-! Concrete inputs used by counterexamples and witnesses. -/

/-- The factory state at plugin start: no cooldowns, empty pool. -/
def initialFactoryState : FactoryState := ⟨fun _ => none, []⟩

/-- Settings with Claude selected and only the Claude key configured. -/
def settingsClaudeOnly : AIExcerptSettings :=
  ⟨.claude, .default, "claude-key", "claude-model", "", "openai-model", 140⟩

/-- Settings with Claude selected and both keys configured. -/
def settingsBothKeysClaude : AIExcerptSettings :=
  ⟨.claude, .default, "claude-key", "claude-model", "openai-key", "openai-model", 140⟩

/-- Settings with OpenAI selected and both keys configured. -/
def settingsBothKeysOpenai : AIExcerptSettings :=
  ⟨.openai, .default, "claude-key", "claude-model", "openai-key", "openai-model", 140⟩

/-- State after `reportProviderFailure(claude)` at time `0`: Claude is in
cooldown until `60000`. -/
def claudeCooldownState : FactoryState := reportProviderFailure initialFactoryState .claude 0

/-- A factory state whose pool is at capacity and holds one instance of each
identity. -/
def fullPoolState : FactoryState :=
  ⟨fun _ => none, [((.claude, 0), ⟨.claude, 0⟩), ((.openai, 1), ⟨.openai, 1⟩)]⟩

/-- A markdown file with frontmatter and a non-empty excerpt, whose primary
generate call fails and whose fallback call succeeds. -/
def envFallbackSuccess : ProcEnv :=
  ⟨true, true, true, true, .error "primary failure", .ok "fallback text".data⟩

/-- Same file, but both the primary and the fallback generate calls fail. -/
def envBothFail : ProcEnv :=
  ⟨true, true, true, true, .error "primary failure", .error "fallback failure"⟩

/-- The sentence from testable property 3 of the specification. -/
def trailingOffText : List Char :=
  "Hello world. This is fine. This trails off without end".data

/-! Helper lemmas. -/

theorem length_dropWhile_le (p : Char → Bool) (cs : List Char) :
    (cs.dropWhile p).length ≤ cs.length := by
  induction cs with
  | nil => simp [List.dropWhile]
  | cons c rest ih =>
    by_cases h : p c = true
    · simp only [List.dropWhile, h]
      exact Nat.le_trans ih (by simp)
    · simp [List.dropWhile, h]

theorem length_jsTrim_le (cs : List Char) : (jsTrim cs).length ≤ cs.length := by
  unfold jsTrim
  calc ((cs.dropWhile isJsWhitespace).reverse.dropWhile isJsWhitespace).reverse.length
      = ((cs.dropWhile isJsWhitespace).reverse.dropWhile isJsWhitespace).length := by
        simp
    _ ≤ (cs.dropWhile isJsWhitespace).reverse.length := length_dropWhile_le _ _
    _ = (cs.dropWhile isJsWhitespace).length := by simp
    _ ≤ cs.length := length_dropWhile_le _ _

theorem lastBoundaryLoop_le (maxLength : Nat) (ms : List (Nat × Nat)) (acc : Int)
    (h : acc ≤ (maxLength : Int)) :
    lastBoundaryLoop maxLength ms acc ≤ (maxLength : Int) := by
  induction ms generalizing acc with
  | nil => simpa [lastBoundaryLoop] using h
  | cons m rest ih =>
    obtain ⟨idx, len⟩ := m
    simp only [lastBoundaryLoop]
    split
    · exact ih _ (by exact_mod_cast ‹idx + len ≤ maxLength›)
    · exact h

theorem lastIndexOfFrom_le (cs : List Char) (ch : Char) (fromIdx : Nat) :
    lastIndexOfFrom cs ch fromIdx ≤ (fromIdx : Int) := by
  induction cs generalizing fromIdx with
  | nil =>
    simp only [lastIndexOfFrom]
    omega
  | cons c rest ih =>
    simp only [lastIndexOfFrom]
    split
    · split <;> omega
    · have hr := ih (fromIdx - 1)
      split
      · omega
      · split <;> omega

/-- C1.  For every string and every positive `maxLength`, the normalizer
`_ensureCompleteSentence(text, maxLength)` returns a string of length at most
`maxLength`, whichever of its branches fires (unchanged text, regex sentence
boundary, punctuation fallback, 75-percent space fallback, or hard truncation
plus synthesized period). -/
theorem ensureCompleteSentence_length_le (text : List Char) (maxLength : Nat)
    (h : 1 ≤ maxLength) :
    (ensureCompleteSentence text maxLength).length ≤ maxLength := by
  have hb := lastBoundaryLoop_le maxLength (sentenceEndMatches text) (-1) (by omega)
  have htrim : ∀ n, n ≤ maxLength → (jsTrim (text.take n)).length ≤ maxLength := by
    intro n hn
    exact Nat.le_trans (length_jsTrim_le _) (Nat.le_trans (List.length_take_le _ _) hn)
  have htrim1 : ∀ n, n ≤ maxLength - 1 →
      (jsTrim (text.take n) ++ ['.']).length ≤ maxLength := by
    intro n hn
    rw [List.length_append]
    have := Nat.le_trans (length_jsTrim_le (text.take n)) (List.length_take_le n text)
    simp only [List.length_cons, List.length_nil]
    omega
  unfold ensureCompleteSentence
  dsimp only
  by_cases h0 : text.length ≤ maxLength
  · rw [if_pos h0]
    exact h0
  · rw [if_neg h0]
    by_cases h1 : 0 < lastBoundaryLoop maxLength (sentenceEndMatches text) (-1)
    · rw [if_pos h1]
      exact htrim _ (Int.toNat_le.mpr hb)
    · rw [if_neg h1]
      have hp := lastIndexOfFrom_le text '.' (maxLength - 1)
      have hq := lastIndexOfFrom_le text '?' (maxLength - 1)
      have he := lastIndexOfFrom_le text '!' (maxLength - 1)
      have hs := lastIndexOfFrom_le text ' ' (maxLength - 1)
      set P := lastIndexOfFrom text '.' (maxLength - 1)
      set Q := lastIndexOfFrom text '?' (maxLength - 1)
      set E := lastIndexOfFrom text '!' (maxLength - 1)
      set S := lastIndexOfFrom text ' ' (maxLength - 1)
      set M := max (max (if 0 < P then P else 0) (if 0 < Q then Q else 0))
        (if 0 < E then E else 0) with hM
      have hM1 : M ≤ (maxLength : Int) - 1 := by
        rw [hM]
        have g1 : (if 0 < P then P else 0) ≤ (maxLength : Int) - 1 := by
          split <;> omega
        have g2 : (if 0 < Q then Q else 0) ≤ (maxLength : Int) - 1 := by
          split <;> omega
        have g3 : (if 0 < E then E else 0) ≤ (maxLength : Int) - 1 := by
          split <;> omega
        exact max_le (max_le g1 g2) g3
      by_cases h2 : 0 < M
      · rw [if_pos h2]
        exact htrim _ (by omega)
      · rw [if_neg h2]
        rw [if_pos (by omega : maxLength < text.length)]
        by_cases h3 : 3 * (maxLength : Int) < 4 * S
        · rw [if_pos h3]
          exact htrim1 _ (by omega)
        · rw [if_neg h3]
          exact htrim1 _ (by omega)

/-- Witness for C1: the length invariant evaluated at the specification's own
example text with `maxLength = 27`. -/
theorem ensureCompleteSentence_length_le_witness :
    1 ≤ 27 ∧ (ensureCompleteSentence trailingOffText 27).length ≤ 27 :=
  ⟨by decide, ensureCompleteSentence_length_le trailingOffText 27 (by decide)⟩

/-- C8, counterexample.  On the specification's example text with
`maxLength = 27` the normalizer does not return `"Hello world."`: the last
regex boundary whose end position is at most 27 is the one after
`"This is fine."` (match at index 25, length 2, end position 27). -/
theorem ensureCompleteSentence_c8_counterexample :
    ensureCompleteSentence trailingOffText 27 ≠ "Hello world.".data := by
  decide

/-- C8, amended.  On `"Hello world. This is fine. This trails off without
end"` with `maxLength = 27`, the normalizer returns
`"Hello world. This is fine."` — the text up to the last sentence boundary at
or before the limit (the regex matches end at positions 13 and 27), trimmed —
and not a hard truncation. -/
theorem ensureCompleteSentence_c8_boundary :
    sentenceEndMatches trailingOffText = [(11, 2), (25, 2)] ∧
    ensureCompleteSentence trailingOffText 27 = "Hello world. This is fine.".data := by
  constructor
  · decide
  · decide

/-- C9.  In the `ClaudeProvider` revision at
`src/providers/claude-provider.ts`, for every `maxLength ≥ 3`, whenever the
raw API text is longer than `maxLength` the length-enforcement step returns
`rawText.substring(0, maxLength - 3) + "..."`: a string of length exactly
`maxLength` whose last three characters are the ellipsis. -/
theorem claudeEnforceLength_ellipsis (text : List Char) (maxLength : Nat)
    (h3 : 3 ≤ maxLength) (hlen : maxLength < text.length) :
    claudeEnforceLength text maxLength = text.take (maxLength - 3) ++ ['.', '.', '.'] ∧
    (claudeEnforceLength text maxLength).length = maxLength ∧
    (claudeEnforceLength text maxLength).drop (maxLength - 3) = ['.', '.', '.'] := by
  have he : claudeEnforceLength text maxLength =
      text.take (maxLength - 3) ++ ['.', '.', '.'] := by
    unfold claudeEnforceLength
    rw [if_pos hlen]
  have ht : (text.take (maxLength - 3)).length = maxLength - 3 := by
    rw [List.length_take]
    omega
  refine ⟨he, ?_, ?_⟩
  · rw [he, List.length_append, ht]
    simp only [List.length_cons, List.length_nil]
    omega
  · rw [he]
    exact List.drop_left' ht

/-- Witness for C9 at `maxLength = 3` and a five-character text. -/
theorem claudeEnforceLength_ellipsis_witness :
    claudeEnforceLength "abcde".data 3 = "abcde".data.take 0 ++ ['.', '.', '.'] ∧
    (claudeEnforceLength "abcde".data 3).length = 3 ∧
    (claudeEnforceLength "abcde".data 3).drop 0 = ['.', '.', '.'] :=
  claudeEnforceLength_ellipsis "abcde".data 3 (by decide) (by decide)

theorem claudeGenerate_delays_length (jitter : Nat → Nat) (maxLength : Nat)
    (outcomes : List ClaudeOutcome) :
    ∀ rc, (claudeGenerate jitter maxLength rc outcomes).2.1.length ≤
      claudeMaxRetries - rc := by
  induction outcomes with
  | nil =>
    intro rc
    simp [claudeGenerate]
  | cons o rest ih =>
    intro rc
    cases o with
    | success t => simp [claudeGenerate]
    | otherError m => simp [claudeGenerate]
    | apiError status retryAfter =>
      simp only [claudeGenerate]
      by_cases h429 : status = 429
      · rw [if_pos h429]
        by_cases hrc : rc < claudeMaxRetries
        · rw [if_pos hrc]
          have := ih (rc + 1)
          simp only [List.length_cons]
          omega
        · rw [if_neg hrc]
          simp
      · rw [if_neg h429]
        split
        · simp
        · split
          · simp
          · split
            · simp
            · split <;> simp

/-- C7, counterexample.  A `retry-after` hint that is present but zero is
falsy in the JavaScript expression `retryAfter || Math.min(...)`, so the
retry after a 429 carrying `retry-after: 0` waits the computed backoff of
`2^1 * 1000` milliseconds (with zero jitter), not the hinted `0`
milliseconds. -/
theorem claudeGenerate_c7_counterexample :
    (claudeGenerate (fun _ => 0) 100 0
        [.apiError 429 (some 0), .success "Hi".data]).2.1 = [2000] ∧
    ((2000 : Nat) = 0 * 1000) = False := by
  constructor
  · decide
  · decide

/-- C7, amended.  `ClaudeProvider.generateExcerpt` retries only on HTTP 429,
at most `maxRetries = 5` times from a fresh instance; each retry is delayed by
the server-supplied `retry-after` hint when it is present and non-zero, and
otherwise (absent, zero, or unparseable hint) by
`min(2^attempt * 1000 + jitter, 30000)`; once the retry count has reached the
cap a further 429 throws the terminal rate-limit error with no delay; and
statuses 529, 401, 400, and other statuses `≥ 500` throw immediately with no
retry and no delay. -/
theorem claudeGenerate_retry_policy (jitter : Nat → Nat) (maxLength : Nat) :
    (∀ outcomes,
      (claudeGenerate jitter maxLength 0 outcomes).2.1.length ≤ claudeMaxRetries) ∧
    (∀ rc retryAfter rest, rc < claudeMaxRetries →
      claudeGenerate jitter maxLength rc (.apiError 429 retryAfter :: rest) =
        ((claudeGenerate jitter maxLength (rc + 1) rest).1,
          (match retryAfter with
            | some s => if s * 1000 ≠ 0 then s * 1000 else backoffDelay jitter (rc + 1)
            | none => backoffDelay jitter (rc + 1)) ::
            (claudeGenerate jitter maxLength (rc + 1) rest).2.1,
          (claudeGenerate jitter maxLength (rc + 1) rest).2.2)) ∧
    (∀ rc retryAfter rest, claudeMaxRetries ≤ rc →
      claudeGenerate jitter maxLength rc (.apiError 429 retryAfter :: rest) =
        (.error .rateLimitExceeded, [], rc)) ∧
    (∀ rc retryAfter rest,
      claudeGenerate jitter maxLength rc (.apiError 529 retryAfter :: rest) =
        (.error .overloaded, [], rc)) ∧
    (∀ rc retryAfter rest,
      claudeGenerate jitter maxLength rc (.apiError 401 retryAfter :: rest) =
        (.error .invalidApiKey, [], rc)) ∧
    (∀ rc retryAfter rest,
      claudeGenerate jitter maxLength rc (.apiError 400 retryAfter :: rest) =
        (.error .invalidRequest, [], rc)) ∧
    (∀ rc status retryAfter rest, 500 ≤ status → status ≠ 529 →
      claudeGenerate jitter maxLength rc (.apiError status retryAfter :: rest) =
        (.error .serverError, [], rc)) ∧
    (∀ rc status retryAfter rest, status ≠ 429 →
      (claudeGenerate jitter maxLength rc (.apiError status retryAfter :: rest)).2.1 =
        []) := by
  refine ⟨?_, ?_, ?_, ?_, ?_, ?_, ?_, ?_⟩
  · intro outcomes
    have := claudeGenerate_delays_length jitter maxLength outcomes 0
    omega
  · intro rc retryAfter rest hrc
    simp [claudeGenerate, hrc]
  · intro rc retryAfter rest hrc
    have hn : ¬rc < claudeMaxRetries := by omega
    simp [claudeGenerate, hn]
  · intro rc retryAfter rest
    simp [claudeGenerate]
  · intro rc retryAfter rest
    simp [claudeGenerate]
  · intro rc retryAfter rest
    simp [claudeGenerate]
  · intro rc status retryAfter rest h500 h529
    have h429 : status ≠ 429 := by omega
    have h401 : status ≠ 401 := by omega
    have h400 : status ≠ 400 := by omega
    simp [claudeGenerate, h429, h529, h401, h400, h500]
  · intro rc status retryAfter rest h429
    simp only [claudeGenerate, h429, if_false]
    split
    · rfl
    · split
      · rfl
      · split
        · rfl
        · split <;> rfl

/-- Witness for C7, applying the retry policy at concrete inputs: at most five
retries from a fresh instance on a stream of 429s, terminal rate-limit error
at the cap, and an immediate server error on a 503. -/
theorem claudeGenerate_retry_policy_witness :
    (claudeGenerate (fun _ => 0) 100 0
        (List.replicate 6 (.apiError 429 none))).2.1.length ≤ claudeMaxRetries ∧
    claudeGenerate (fun _ => 0) 100 5 [.apiError 429 none] =
      (.error .rateLimitExceeded, [], 5) ∧
    claudeGenerate (fun _ => 0) 100 0 [.apiError 503 none] =
      (.error .serverError, [], 0) :=
  ⟨(claudeGenerate_retry_policy (fun _ => 0) 100).1 _,
    (claudeGenerate_retry_policy (fun _ => 0) 100).2.2.1 5 none [] (by decide),
    (claudeGenerate_retry_policy (fun _ => 0) 100).2.2.2.2.2.2.1 0 503 none []
      (by decide) (by decide)⟩

theorem otherProvider_ne (p : LLMProvider) : otherProvider p ≠ p := by
  cases p <;> simp [otherProvider]

theorem isProviderInCooldown_report_other (st : FactoryState) (p q : LLMProvider)
    (t now : Nat) (h : q ≠ p) :
    isProviderInCooldown (reportProviderFailure st p t) q now =
      isProviderInCooldown st q now := by
  simp [isProviderInCooldown, reportProviderFailure, setProviderCooldown, h]

theorem isProviderInCooldown_report_self (st : FactoryState) (p : LLMProvider)
    (t0 now : Nat) :
    isProviderInCooldown (reportProviderFailure st p t0) p now =
      decide (now < t0 + cooldownDuration) := by
  have hz : (t0 + cooldownDuration != 0) = true := by
    simp [cooldownDuration]
  simp [isProviderInCooldown, reportProviderFailure, setProviderCooldown, hz]

theorem createFallbackProvider_fallback_cooldown (s : AIExcerptSettings)
    (p : LLMProvider) (st : FactoryState) (now : Nat)
    (h : isProviderInCooldown st (otherProvider p) now = true) :
    createFallbackProvider s p st now = (⟨none, some (otherProvider p), false⟩, st) := by
  cases p <;> simp_all [createFallbackProvider, otherProvider]

theorem createFallbackProvider_missing_key (s : AIExcerptSettings)
    (p : LLMProvider) (st : FactoryState) (now : Nat)
    (hcd : isProviderInCooldown st (otherProvider p) now = false)
    (hkey : apiKeyFor s (otherProvider p) = "") :
    createFallbackProvider s p st now = (⟨none, some (otherProvider p), true⟩, st) := by
  cases p <;> simp_all [createFallbackProvider, otherProvider, apiKeyFor]

theorem createFallbackProvider_available (s : AIExcerptSettings)
    (p : LLMProvider) (st : FactoryState) (now : Nat)
    (hcd : isProviderInCooldown st (otherProvider p) now = false)
    (hkey : apiKeyFor s (otherProvider p) ≠ "") :
    createFallbackProvider s p st now =
      (⟨some ⟨otherProvider p, now⟩, some (otherProvider p), false⟩,
        { st with activeProviders :=
            mapSet st.activeProviders (otherProvider p, now) ⟨otherProvider p, now⟩ }) := by
  cases p <;> simp_all [createFallbackProvider, otherProvider, apiKeyFor]

theorem createProvider_fresh (s : AIExcerptSettings) (st : FactoryState) (now : Nat)
    (hcd : isProviderInCooldown st s.provider now = false)
    (hlen : st.activeProviders.length < maxActiveProviders)
    (hkey : apiKeyFor s s.provider ≠ "") :
    createProvider s st now =
      (some ⟨s.provider, now⟩,
        { st with activeProviders :=
            mapSet st.activeProviders (s.provider, now) ⟨s.provider, now⟩ }) := by
  unfold createProvider createProviderRest
  dsimp only
  rw [if_neg (by simp [hcd]), if_neg (Nat.not_le.mpr hlen)]
  cases hp : s.provider with
  | claude =>
    rw [hp] at hkey
    simp only [apiKeyFor] at hkey
    rw [if_neg hkey]
  | openai =>
    rw [hp] at hkey
    simp only [apiKeyFor] at hkey
    rw [if_neg hkey]

/-- C2, counterexample.  After `reportProviderFailure(claude)` at time `0` the
Claude identity is in cooldown at time `1`, yet `createProvider` (with the
fallback key unconfigured, here) returns a Claude instance: the cooldown
redirect falls through to normal construction when no fallback was
obtained. -/
theorem createProvider_c2_counterexample :
    isProviderInCooldown claudeCooldownState .claude 1 = true ∧
    (createProvider settingsClaudeOnly claudeCooldownState 1).1 =
      some ⟨.claude, 1⟩ := by
  constructor
  · decide
  · decide

/-- C2, amended.  While `settings.provider` is in cooldown, `createProvider`
returns the fallback instance — never an instance of the cooled-down
identity — provided the fallback is available (not itself in cooldown and its
key configured); and the cooldown is checked lazily on read: after
`reportProviderFailure(P)` at time `t0`, the cooldown predicate for `P` holds
exactly while `now < t0 + cooldownDuration`. -/
theorem createProvider_cooldown_suppression (s : AIExcerptSettings)
    (st : FactoryState) (now t0 : Nat)
    (hcd : isProviderInCooldown st s.provider now = true)
    (hfb : isProviderInCooldown st (otherProvider s.provider) now = false)
    (hkey : apiKeyFor s (otherProvider s.provider) ≠ "") :
    ((createProvider s st now).1 = some ⟨otherProvider s.provider, now⟩ ∧
      otherProvider s.provider ≠ s.provider) ∧
    isProviderInCooldown (reportProviderFailure st s.provider t0) s.provider now =
      decide (now < t0 + cooldownDuration) := by
  refine ⟨⟨?_, otherProvider_ne s.provider⟩,
    isProviderInCooldown_report_self st s.provider t0 now⟩
  unfold createProvider
  dsimp only
  rw [if_pos (by simp [hcd]), createFallbackProvider_available s s.provider st now hfb hkey]

/-- Witness for C2 (amended): Claude in cooldown at time 1, OpenAI configured
and healthy. -/
theorem createProvider_cooldown_suppression_witness :
    (((createProvider settingsBothKeysClaude claudeCooldownState 1).1 =
        some ⟨otherProvider settingsBothKeysClaude.provider, 1⟩) ∧
      otherProvider settingsBothKeysClaude.provider ≠ settingsBothKeysClaude.provider) ∧
    isProviderInCooldown
        (reportProviderFailure claudeCooldownState settingsBothKeysClaude.provider 0)
        settingsBothKeysClaude.provider 1 =
      decide (1 < 0 + cooldownDuration) :=
  createProvider_cooldown_suppression settingsBothKeysClaude claudeCooldownState 1 0
    (by decide) (by decide) (by decide)

/-- C3, counterexample.  Two OpenAI acquisitions followed by a Claude
acquisition grow the pool to three instances, exceeding
`maxActiveProviders = 2`: the at-capacity check only short-circuits when an
instance of the requested identity already exists in the pool. -/
theorem createProvider_c3_counterexample :
    (createProvider settingsBothKeysClaude
        (createProvider settingsBothKeysOpenai
          (createProvider settingsBothKeysOpenai initialFactoryState 0).2 1).2
        2).2.activeProviders.length = 3 ∧
    maxActiveProviders < 3 := by
  constructor
  · decide
  · decide

/-- C3, amended.  When the pool is at (or beyond) capacity and an instance of
the requested identity is pooled (and the identity is not in cooldown),
`createProvider` returns that existing instance and leaves the state
unchanged; without such an instance it constructs and pools a new one, so the
pool can exceed `maxActiveProviders` (see the counterexample; the fallback
path never checks capacity at all). -/
theorem createProvider_at_capacity (s : AIExcerptSettings) (st : FactoryState)
    (now : Nat) (inst : ProviderInstance)
    (hcd : isProviderInCooldown st s.provider now = false)
    (hcap : maxActiveProviders ≤ st.activeProviders.length)
    (hex : getExistingProvider st s.provider = some inst) :
    createProvider s st now = (some inst, st) := by
  unfold createProvider createProviderRest
  dsimp only
  rw [if_neg (by simp [hcd]), if_pos hcap, hex]

/-- Witness for C3 (amended): a full pool holding a Claude instance returns it
to a Claude request without growing. -/
theorem createProvider_at_capacity_witness :
    createProvider settingsBothKeysClaude fullPoolState 5 =
      (some ⟨.claude, 0⟩, fullPoolState) :=
  createProvider_at_capacity settingsBothKeysClaude fullPoolState 5 ⟨.claude, 0⟩
    (by decide) (by decide) (by decide)

/-- C6.  `createFallbackProvider` always resolves the fallback identity to the
other provider — Claude maps to OpenAI and vice versa, regardless of settings,
cooldown state or configured keys — and the fallback identity never equals the
primary identity. -/
theorem createFallbackProvider_routing (s : AIExcerptSettings) (st : FactoryState)
    (now : Nat) :
    ((createFallbackProvider s .claude st now).1.fallbackType = some .openai) ∧
    ((createFallbackProvider s .openai st now).1.fallbackType = some .claude) ∧
    (∀ p, (createFallbackProvider s p st now).1.fallbackType = some (otherProvider p)) ∧
    (∀ p, (createFallbackProvider s p st now).1.fallbackType ≠ some p) := by
  have key : ∀ p, (createFallbackProvider s p st now).1.fallbackType =
      some (otherProvider p) := by
    intro p
    cases p <;> unfold createFallbackProvider <;> dsimp only <;>
      split_ifs <;> simp [otherProvider]
  refine ⟨key .claude, key .openai, key, fun p => ?_⟩
  rw [key p]
  simp [otherProvider_ne p]

/-- Witness for C6: no self-fallback at a concrete input. -/
theorem createFallbackProvider_routing_witness :
    (createFallbackProvider settingsBothKeysClaude .claude
        initialFactoryState 0).1.fallbackType ≠ some .claude :=
  (createFallbackProvider_routing settingsBothKeysClaude initialFactoryState 0).2.2.2
    .claude

/-- C4, counterexample.  A run of the second `processFile` revision from an
empty pool in which the primary fails and the fallback succeeds completes
normally, yet the pool has not returned to its pre-request baseline: the
primary Claude instance acquired for the request is still pooled — only the
fallback instance was released. -/
theorem processFileV2_c4_counterexample :
    (processFileV2 settingsBothKeysClaude envFallbackSuccess initialFactoryState 7).outcome =
      .completed ∧
    (processFileV2 settingsBothKeysClaude envFallbackSuccess initialFactoryState
        7).state.activeProviders = [((.claude, 7), ⟨.claude, 7⟩)] ∧
    initialFactoryState.activeProviders = [] := by
  refine ⟨?_, ?_, ?_⟩
  · decide
  · decide
  · decide

/-- C4, amended.  In the second `processFile` revision, starting from an empty
pool with the configured provider healthy: on primary success the primary
instance is released and the pool returns to its baseline; when no fallback
instance is obtained (fallback key missing, or fallback identity in cooldown)
the primary is likewise released and the pool returns to baseline; but on the
fallback paths — fallback obtained, whether it then succeeds or fails — only
the fallback instance is released, and the primary instance acquired for the
request remains in the pool. -/
theorem processFileV2_release_discipline (s : AIExcerptSettings)
    (cd : LLMProvider → Option Nat) (env : ProcEnv) (now : Nat)
    (hmd : env.extensionMd = true)
    (hcd : isProviderInCooldown ⟨cd, []⟩ s.provider now = false)
    (hkey : apiKeyFor s s.provider ≠ "") :
    (∀ t, env.primaryResult = .ok t →
      (processFileV2 s env ⟨cd, []⟩ now).state.activeProviders = []) ∧
    (∀ e1, env.primaryResult = .error e1 →
      apiKeyFor s (otherProvider s.provider) = "" →
      isProviderInCooldown ⟨cd, []⟩ (otherProvider s.provider) now = false →
      (processFileV2 s env ⟨cd, []⟩ now).state.activeProviders = []) ∧
    (∀ e1, env.primaryResult = .error e1 →
      isProviderInCooldown ⟨cd, []⟩ (otherProvider s.provider) now = true →
      (processFileV2 s env ⟨cd, []⟩ now).state.activeProviders = []) ∧
    (∀ e1, env.primaryResult = .error e1 →
      isProviderInCooldown ⟨cd, []⟩ (otherProvider s.provider) now = false →
      apiKeyFor s (otherProvider s.provider) ≠ "" →
      (processFileV2 s env ⟨cd, []⟩ now).state.activeProviders =
        [((s.provider, now), ⟨s.provider, now⟩)]) := by
  cases hsp : s.provider with
  | claude =>
    rw [hsp] at hcd hkey
    simp only [apiKeyFor] at hkey
    simp only [isProviderInCooldown] at hcd
    refine ⟨?_, ?_, ?_, ?_⟩
    · intro t hpr
      by_cases hf : env.hasFrontmatter <;>
        simp [processFileV2, hmd, hf, hpr, createProvider, createProviderRest,
          isProviderInCooldown, hcd, maxActiveProviders, hsp, hkey, apiKeyFor,
          mapSet, releaseProvider, removeFirstInstance]
    · intro e1 hpr hk0 hfb
      simp only [otherProvider, apiKeyFor] at hk0 hfb
      simp only [isProviderInCooldown] at hfb
      by_cases hf : env.hasFrontmatter <;>
        simp [processFileV2, hmd, hf, hpr, createProvider, createProviderRest,
          isProviderInCooldown, hcd, hfb, maxActiveProviders, hsp, hkey, hk0,
          apiKeyFor, mapSet, releaseProvider, removeFirstInstance,
          reportProviderFailure, setProviderCooldown, createFallbackProvider]
    · intro e1 hpr hfb
      simp only [otherProvider] at hfb
      simp only [isProviderInCooldown] at hfb
      by_cases hf : env.hasFrontmatter <;>
        simp [processFileV2, hmd, hf, hpr, createProvider, createProviderRest,
          isProviderInCooldown, hcd, hfb, maxActiveProviders, hsp, hkey,
          apiKeyFor, mapSet, releaseProvider, removeFirstInstance,
          reportProviderFailure, setProviderCooldown, createFallbackProvider]
    · intro e1 hpr hfb hk2
      simp only [otherProvider, apiKeyFor] at hfb hk2
      simp only [isProviderInCooldown] at hfb
      cases hfr : env.fallbackResult <;>
        by_cases hf : env.hasFrontmatter <;>
        simp [processFileV2, hmd, hf, hpr, hfr, createProvider, createProviderRest,
          isProviderInCooldown, hcd, hfb, maxActiveProviders, hsp, hkey, hk2,
          apiKeyFor, mapSet, releaseProvider, removeFirstInstance,
          reportProviderFailure, setProviderCooldown, createFallbackProvider]
  | openai =>
    rw [hsp] at hcd hkey
    simp only [apiKeyFor] at hkey
    simp only [isProviderInCooldown] at hcd
    refine ⟨?_, ?_, ?_, ?_⟩
    · intro t hpr
      by_cases hf : env.hasFrontmatter <;>
        simp [processFileV2, hmd, hf, hpr, createProvider, createProviderRest,
          isProviderInCooldown, hcd, maxActiveProviders, hsp, hkey, apiKeyFor,
          mapSet, releaseProvider, removeFirstInstance]
    · intro e1 hpr hk0 hfb
      simp only [otherProvider, apiKeyFor] at hk0 hfb
      simp only [isProviderInCooldown] at hfb
      by_cases hf : env.hasFrontmatter <;>
        simp [processFileV2, hmd, hf, hpr, createProvider, createProviderRest,
          isProviderInCooldown, hcd, hfb, maxActiveProviders, hsp, hkey, hk0,
          apiKeyFor, mapSet, releaseProvider, removeFirstInstance,
          reportProviderFailure, setProviderCooldown, createFallbackProvider]
    · intro e1 hpr hfb
      simp only [otherProvider] at hfb
      simp only [isProviderInCooldown] at hfb
      by_cases hf : env.hasFrontmatter <;>
        simp [processFileV2, hmd, hf, hpr, createProvider, createProviderRest,
          isProviderInCooldown, hcd, hfb, maxActiveProviders, hsp, hkey,
          apiKeyFor, mapSet, releaseProvider, removeFirstInstance,
          reportProviderFailure, setProviderCooldown, createFallbackProvider]
    · intro e1 hpr hfb hk2
      simp only [otherProvider, apiKeyFor] at hfb hk2
      simp only [isProviderInCooldown] at hfb
      cases hfr : env.fallbackResult <;>
        by_cases hf : env.hasFrontmatter <;>
        simp [processFileV2, hmd, hf, hpr, hfr, createProvider, createProviderRest,
          isProviderInCooldown, hcd, hfb, maxActiveProviders, hsp, hkey, hk2,
          apiKeyFor, mapSet, releaseProvider, removeFirstInstance,
          reportProviderFailure, setProviderCooldown, createFallbackProvider]

/-- Witness for C4 (amended), at the fallback-success path: the run completes
but the primary Claude instance stays pooled. -/
theorem processFileV2_release_discipline_witness :
    (processFileV2 settingsBothKeysClaude envFallbackSuccess
        initialFactoryState 7).state.activeProviders =
      [((settingsBothKeysClaude.provider, 7), ⟨settingsBothKeysClaude.provider, 7⟩)] :=
  (processFileV2_release_discipline settingsBothKeysClaude (fun _ => none)
      envFallbackSuccess 7 (by decide) (by decide) (by decide)).2.2.2
    "primary failure" (by decide) (by decide) (by decide)

/-- C5, counterexample.  When the primary fails with `"primary failure"` and
the fallback fails with `"fallback failure"`, the second `processFile`
revision ends with the outer catch swallowing the fallback error — the
original primary error is not the one propagated. -/
theorem processFileV2_c5_counterexample :
    (processFileV2 settingsBothKeysClaude envBothFail initialFactoryState 7).outcome =
      .errorSwallowed "fallback failure" ∧
    envBothFail.primaryResult = .error "primary failure" ∧
    "fallback failure" ≠ "primary failure" := by
  refine ⟨?_, ?_, ?_⟩ <;> decide

/-- C5, amended.  In the second `processFile` revision, when the primary
generate call fails and a fallback instance is obtained and also fails, the
error propagated out of the generate/fallback logic is the fallback error —
which the outer catch then swallows (logging it), so the caller receives
neither error; the original primary error is the one propagated (and likewise
swallowed) only when no fallback instance was obtained. -/
theorem processFileV2_error_surfacing (s : AIExcerptSettings)
    (cd : LLMProvider → Option Nat) (env : ProcEnv) (now : Nat) (e1 : String)
    (hmd : env.extensionMd = true)
    (hcd : isProviderInCooldown ⟨cd, []⟩ s.provider now = false)
    (hkey : apiKeyFor s s.provider ≠ "")
    (hpr : env.primaryResult = .error e1) :
    (∀ e2, isProviderInCooldown ⟨cd, []⟩ (otherProvider s.provider) now = false →
      apiKeyFor s (otherProvider s.provider) ≠ "" →
      env.fallbackResult = .error e2 →
      (processFileV2 s env ⟨cd, []⟩ now).outcome = .errorSwallowed e2) ∧
    (apiKeyFor s (otherProvider s.provider) = "" →
      isProviderInCooldown ⟨cd, []⟩ (otherProvider s.provider) now = false →
      (processFileV2 s env ⟨cd, []⟩ now).outcome = .errorSwallowed e1) ∧
    (isProviderInCooldown ⟨cd, []⟩ (otherProvider s.provider) now = true →
      (processFileV2 s env ⟨cd, []⟩ now).outcome = .errorSwallowed e1) := by
  cases hsp : s.provider with
  | claude =>
    rw [hsp] at hcd hkey
    simp only [apiKeyFor] at hkey
    simp only [isProviderInCooldown] at hcd
    refine ⟨?_, ?_, ?_⟩
    · intro e2 hfb hk2 hfr
      simp only [otherProvider, apiKeyFor] at hfb hk2
      simp only [isProviderInCooldown] at hfb
      by_cases hf : env.hasFrontmatter <;>
        simp [processFileV2, hmd, hf, hpr, hfr, createProvider, createProviderRest,
          isProviderInCooldown, hcd, hfb, maxActiveProviders, hsp, hkey, hk2,
          apiKeyFor, mapSet, releaseProvider, removeFirstInstance,
          reportProviderFailure, setProviderCooldown, createFallbackProvider]
    · intro hk0 hfb
      simp only [otherProvider, apiKeyFor] at hk0 hfb
      simp only [isProviderInCooldown] at hfb
      by_cases hf : env.hasFrontmatter <;>
        simp [processFileV2, hmd, hf, hpr, createProvider, createProviderRest,
          isProviderInCooldown, hcd, hfb, maxActiveProviders, hsp, hkey, hk0,
          apiKeyFor, mapSet, releaseProvider, removeFirstInstance,
          reportProviderFailure, setProviderCooldown, createFallbackProvider]
    · intro hfb
      simp only [otherProvider] at hfb
      simp only [isProviderInCooldown] at hfb
      by_cases hf : env.hasFrontmatter <;>
        simp [processFileV2, hmd, hf, hpr, createProvider, createProviderRest,
          isProviderInCooldown, hcd, hfb, maxActiveProviders, hsp, hkey,
          apiKeyFor, mapSet, releaseProvider, removeFirstInstance,
          reportProviderFailure, setProviderCooldown, createFallbackProvider]
  | openai =>
    rw [hsp] at hcd hkey
    simp only [apiKeyFor] at hkey
    simp only [isProviderInCooldown] at hcd
    refine ⟨?_, ?_, ?_⟩
    · intro e2 hfb hk2 hfr
      simp only [otherProvider, apiKeyFor] at hfb hk2
      simp only [isProviderInCooldown] at hfb
      by_cases hf : env.hasFrontmatter <;>
        simp [processFileV2, hmd, hf, hpr, hfr, createProvider, createProviderRest,
          isProviderInCooldown, hcd, hfb, maxActiveProviders, hsp, hkey, hk2,
          apiKeyFor, mapSet, releaseProvider, removeFirstInstance,
          reportProviderFailure, setProviderCooldown, createFallbackProvider]
    · intro hk0 hfb
      simp only [otherProvider, apiKeyFor] at hk0 hfb
      simp only [isProviderInCooldown] at hfb
      by_cases hf : env.hasFrontmatter <;>
        simp [processFileV2, hmd, hf, hpr, createProvider, createProviderRest,
          isProviderInCooldown, hcd, hfb, maxActiveProviders, hsp, hkey, hk0,
          apiKeyFor, mapSet, releaseProvider, removeFirstInstance,
          reportProviderFailure, setProviderCooldown, createFallbackProvider]
    · intro hfb
      simp only [otherProvider] at hfb
      simp only [isProviderInCooldown] at hfb
      by_cases hf : env.hasFrontmatter <;>
        simp [processFileV2, hmd, hf, hpr, createProvider, createProviderRest,
          isProviderInCooldown, hcd, hfb, maxActiveProviders, hsp, hkey,
          apiKeyFor, mapSet, releaseProvider, removeFirstInstance,
          reportProviderFailure, setProviderCooldown, createFallbackProvider]

/-- Witness for C5 (amended): both calls fail, the swallowed error is the
fallback one. -/
theorem processFileV2_error_surfacing_witness :
    (processFileV2 settingsBothKeysClaude envBothFail initialFactoryState 7).outcome =
      .errorSwallowed "fallback failure" :=
  (processFileV2_error_surfacing settingsBothKeysClaude (fun _ => none) envBothFail 7
      "primary failure" (by decide) (by decide) (by decide) (by decide)).1
    "fallback failure" (by decide) (by decide) (by decide)

/-- C10.  In the first `FileProcessor` revision, a markdown file whose
frontmatter already contains a non-empty excerpt is left alone: `processFile`
performs no `generateExcerpt` call and no file write.  The second revision is
not equivalent on such files: whenever it obtains a provider it generates a
fresh excerpt regardless of the existing one. -/
theorem processFileV1_existing_excerpt (s : AIExcerptSettings) (env : ProcEnv)
    (st : FactoryState) (now : Nat)
    (hmd : env.extensionMd = true) (hfm : env.hasFrontmatter = true)
    (hex : env.hasExcerpt = true) (hne : env.excerptNonEmpty = true) :
    (processFileV1 s env st now).generateCalls = 0 ∧
    (processFileV1 s env st now).writes = 0 ∧
    (∀ p st1, createProvider s st now = (some p, st1) →
      (processFileV1 s env st now).outcome = .excerptExists) ∧
    (∀ p st1, createProvider s st now = (some p, st1) →
      1 ≤ (processFileV2 s env st now).generateCalls) := by
  rcases hc : createProvider s st now with ⟨op, st1⟩
  cases op with
  | none =>
    refine ⟨?_, ?_, ?_, ?_⟩
    · simp [processFileV1, hmd, hc]
    · simp [processFileV1, hmd, hc]
    · intro p st2 h
      simp at h
    · intro p st2 h
      simp at h
  | some p0 =>
    refine ⟨?_, ?_, ?_, ?_⟩
    · simp [processFileV1, hmd, hfm, hex, hne, hc]
    · simp [processFileV1, hmd, hfm, hex, hne, hc]
    · intro p st2 h
      simp [processFileV1, hmd, hfm, hex, hne, hc]
    · intro p st2 h
      simp only [processFileV2, hc]
      rw [if_neg (by simp [hmd]), if_neg (by simp [hfm])]
      split
      · simp
      · split
        · split <;> simp
        · split <;> simp

/-- Witness for C10 at a concrete file with an existing excerpt. -/
theorem processFileV1_existing_excerpt_witness :
    (processFileV1 settingsBothKeysClaude envFallbackSuccess
        initialFactoryState 7).generateCalls = 0 ∧
    (processFileV1 settingsBothKeysClaude envFallbackSuccess
        initialFactoryState 7).writes = 0 :=
  ⟨(processFileV1_existing_excerpt settingsBothKeysClaude envFallbackSuccess
      initialFactoryState 7 (by decide) (by decide) (by decide) (by decide)).1,
    (processFileV1_existing_excerpt settingsBothKeysClaude envFallbackSuccess
      initialFactoryState 7 (by decide) (by decide) (by decide) (by decide)).2.1⟩

end AIExcerpt
